import Mathlib

/-!
Verification of the roboarm-nexus control pipeline: coordinate mapper,
analytical 2-link inverse kinematics, gesture classifier, fixed-rate ball
physics with gripper interaction, tracking-loop pointer publication, and the
configuration form.  Numeric code is embedded over ℚ where it is pure rational
arithmetic (physics, gestures, configuration) and over ℝ where it uses
transcendental functions (kinematics).  A separate extended-number model
(`JSNum`) captures IEEE special values (NaN, ±Infinity) for the totality
claims about the solver.
-/

open Classical

/-! ## Constants (src/constants.ts) -/

/-- CANVAS_WIDTH from src/constants.ts. -/
def CANVAS_WIDTH : ℚ := 600

/-- CANVAS_HEIGHT from src/constants.ts. -/
def CANVAS_HEIGHT : ℚ := 400

/-- BASE_X from src/constants.ts. -/
def BASE_X : ℚ := 300

/-- BASE_Y from src/constants.ts. -/
def BASE_Y : ℚ := 350

/-! ## Data model (src/types.ts) -/

/-- ArmConfig from src/types.ts; numbers modelled as reals. -/
structure ArmConfig where
  segment1Length : ℝ
  segment2Length : ℝ
  baseRotation : ℝ

/-- Coordinates from src/types.ts. -/
structure Coordinates where
  x : ℝ
  y : ℝ
  z : ℝ

/-- JointAngles from src/types.ts.  All four fields are produced as integer
   values by `calculateIK` (Math.floor) and the gripper assignment (0 or 100),
   so they are modelled as ℤ. -/
structure JointAngles where
  base : ℤ
  shoulder : ℤ
  elbow : ℤ
  gripper : ℤ
  deriving DecidableEq

/-- HandGesture from src/types.ts. -/
inductive HandGesture where
  | NONE
  | OPEN_PALM
  | PINCH
  | CLOSED_FIST
  deriving DecidableEq

/-- A Ball from src/types.ts over ℚ (all physics constants are rational). -/
structure Ball where
  id : ℤ
  x : ℚ
  y : ℚ
  color : String
  radius : ℚ
  isGripped : Bool
  vx : ℚ
  vy : ℚ
  deriving DecidableEq

attribute [ext] Ball

/-- A single hand landmark: a normalized 2D point (only x and y are read by
   the classifier). -/
structure Landmark where
  x : ℚ
  y : ℚ
  deriving DecidableEq

/-! ## Square-based comparison with Math.hypot

`Math.hypot dx dy < r` for a nonnegative radius `r` is equivalent to
`dx*dx + dy*dy < r*r`; the squared form keeps the embedding inside ℚ and
decidable. -/

/-- Models `Math.hypot dx dy < r` (for `0 ≤ r`) without leaving ℚ. -/
def hypotLt (dx dy r : ℚ) : Bool :=
  decide (dx * dx + dy * dy < r * r)

/-! ## Coordinate mapper (src/services/kinematics.ts, mapInputToCoordinates) -/

/-- mapInputToCoordinates from src/services/kinematics.ts. -/
noncomputable def mapInputToCoordinates (normX normY : ℝ) (_config : ArmConfig) :
    Coordinates :=
  let clampedX := max 0 (min 1 normX)
  let clampedY := max 0 (min 1 normY)
  let screenX := clampedX * (CANVAS_WIDTH : ℝ)
  let screenY := clampedY * (CANVAS_HEIGHT : ℝ)
  { x := screenX - (BASE_X : ℝ), y := (BASE_Y : ℝ) - screenY, z := 0 }

/-! ## Gesture classifier (src/services/visionService.ts, analyzeGesture) -/

/-- The number of fingertip landmarks {8, 12, 16, 20} whose distance to the
   wrist (landmark 0) is below 0.25, as counted by analyzeGesture. -/
def foldedCount (landmarks : List Landmark) : ℕ :=
  let wrist := landmarks.getD 0 ⟨0, 0⟩
  (([8, 12, 16, 20] : List ℕ).filter (fun idx =>
    hypotLt ((landmarks.getD idx ⟨0, 0⟩).x - wrist.x)
      ((landmarks.getD idx ⟨0, 0⟩).y - wrist.y) (1/4))).length

/-- Pinch test of analyzeGesture: thumb tip (landmark 4) to index tip
   (landmark 8) distance below 0.05. -/
def pinchLt (landmarks : List Landmark) : Bool :=
  let thumbTip := landmarks.getD 4 ⟨0, 0⟩
  let indexTip := landmarks.getD 8 ⟨0, 0⟩
  hypotLt (thumbTip.x - indexTip.x) (thumbTip.y - indexTip.y) (1/20)

/-- analyzeGesture from src/services/visionService.ts.  An absent (null)
   landmark array behaves like the empty list: both return NONE. -/
def analyzeGesture (landmarks : List Landmark) : HandGesture :=
  if landmarks = [] then HandGesture.NONE
  else if foldedCount landmarks ≥ 3 then HandGesture.CLOSED_FIST
  else if pinchLt landmarks then HandGesture.PINCH
  else HandGesture.OPEN_PALM

/-! ## Ball physics (src/unnamed/part_001, updatePhysics per-ball body) -/

/-- One physics tick for a single ball, from the `setBalls` mapper inside
   `updatePhysics`: gripper interaction, then either snap-to-gripper or
   gravity / drag / integration / floor bounce / wall bounce. -/
def updateBall (isGripping : Bool) (gripperVisX gripperVisY : ℚ) (b : Ball) :
    Ball :=
  let isGripped0 := b.isGripped
  let isGripped1 :=
    if isGripping && hypotLt (b.x - gripperVisX) (b.y - gripperVisY) 30 then
      true
    else isGripped0
  let isGripped2 := if !isGripping then false else isGripped1
  if isGripped2 then
    { b with x := gripperVisX, y := gripperVisY + 15, vx := 0, vy := 0,
             isGripped := isGripped2 }
  else
    let vy1 := b.vy + 0.5
    let vx1 := b.vx * 0.95
    let y1 := b.y + vy1
    let x1 := b.x + vx1
    let y2 := if y1 > BASE_Y - b.radius then BASE_Y - b.radius else y1
    let vy2 := if y1 > BASE_Y - b.radius then vy1 * (-0.6) else vy1
    let vx2 := if y1 > BASE_Y - b.radius then vx1 * 0.8 else vx1
    let vx3 := if x1 < 0 || x1 > 600 then vx2 * (-1) else vx2
    { b with x := x1, y := y2, vx := vx3, vy := vy2, isGripped := isGripped2 }

/-- Modelled from the spec (§4.4/§8): the free-ball tick exactly as the claim
   words it — gravity, air drag, integration, floor clamp with restitution
   0.6 and friction 0.8, wall reflected when x leaves [0, 600]. -/
def specFreeTick (b : Ball) : Ball :=
  let vy := b.vy + 0.5
  let vx := b.vx * 0.95
  let y := b.y + vy
  let x := b.x + vx
  if y > BASE_Y - b.radius then
    let yc := BASE_Y - b.radius
    let vyc := vy * (-0.6)
    let vxc := vx * 0.8
    let vxw := if x < 0 || x > 600 then -vxc else vxc
    { b with x := x, y := yc, vx := vxw, vy := vyc, isGripped := false }
  else
    let vxw := if x < 0 || x > 600 then -vx else vx
    { b with x := x, y := y, vx := vxw, vy := vy, isGripped := false }

/-! ## Tracking loop (src/unnamed/part_001, `loop`) -/

/-- The shared refs written by the tracking loop: the latest pointer sample
   and the latest published gesture. -/
structure TrackState where
  inputPos : ℚ × ℚ
  gesture : HandGesture
  deriving DecidableEq

/-- One frame of the tracking loop, restricted to its effect on the shared
   refs.  `detections = some lms` models a frame where at least one hand was
   detected (detections.landmarks.length > 0) with landmark list `lms`;
   `none` models no detection.  The gesture ref ends up equal to the
   classified gesture whether or not `setGesture` fires (it fires only on
   change, but the resulting value is the same). -/
def trackingFrame (st : TrackState) (detections : Option (List Landmark)) :
    TrackState :=
  match detections with
  | none => st
  | some lms =>
    let pointer := lms.getD 5 ⟨0, 0⟩
    let normX := 1 - pointer.x
    let normY := pointer.y
    let currentGesture := analyzeGesture lms
    let newPos :=
      if currentGesture ≠ HandGesture.CLOSED_FIST then (normX, normY)
      else st.inputPos
    { inputPos := newPos, gesture := currentGesture }

/-! ## Configuration form (src/components/ControlPanel.tsx, handleChange) -/

/-- The keys of ArmConfig that handleChange can target. -/
inductive ConfigKey where
  | segment1Length
  | segment2Length
  | baseRotation
  deriving DecidableEq

/-- handleChange from src/components/ControlPanel.tsx.  The JS string parse
   `parseFloat(val)` is modelled as its result: `none` for NaN (empty or
   non-numeric input), `some q` for a successful parse; `parseFloat(val) || 0`
   then maps NaN (and 0 itself) to 0, i.e. `parsed.getD 0`. -/
def handleChange (config : ArmConfig) (key : ConfigKey) (parsed : Option ℝ) :
    ArmConfig :=
  let v := parsed.getD 0
  match key with
  | ConfigKey.segment1Length => { config with segment1Length := v }
  | ConfigKey.segment2Length => { config with segment2Length := v }
  | ConfigKey.baseRotation => { config with baseRotation := v }

/-! ## Inverse kinematics (src/services/kinematics.ts, calculateIK)

The solver is embedded over ℝ: JavaScript's Math.atan2 / Math.acos /
Math.sqrt / Math.cos / Math.sin become their exact real counterparts.
`Math.atan2 y x` is the argument of the complex number x + y·i. -/

/-- Math.atan2(y, x) as the complex argument of x + y·i (range (−π, π]). -/
noncomputable def atan2 (y x : ℝ) : ℝ := Complex.arg ⟨x, y⟩

/-- The planar distance `dist = Math.sqrt(x*x + y*y)` of calculateIK. -/
noncomputable def distTo (t : Coordinates) : ℝ :=
  Real.sqrt (t.x * t.x + t.y * t.y)

/-- `adjustX` of calculateIK: the x-coordinate after the reachability clamp
   (scaled by maxReach/dist when the target is beyond l1+l2). -/
noncomputable def adjustX (t : Coordinates) (c : ArmConfig) : ℝ :=
  if distTo t > c.segment1Length + c.segment2Length then
    t.x * ((c.segment1Length + c.segment2Length) / distTo t)
  else t.x

/-- `adjustY` of calculateIK: the y-coordinate after the reachability clamp. -/
noncomputable def adjustY (t : Coordinates) (c : ArmConfig) : ℝ :=
  if distTo t > c.segment1Length + c.segment2Length then
    t.y * ((c.segment1Length + c.segment2Length) / distTo t)
  else t.y

/-- `cosAngle2` of calculateIK: the law-of-cosines cosine of the elbow angle,
   (rSquared − l1² − l2²) / (2·l1·l2), before clamping. -/
noncomputable def cosAngle2 (t : Coordinates) (c : ArmConfig) : ℝ :=
  (adjustX t c * adjustX t c + adjustY t c * adjustY t c
      - c.segment1Length * c.segment1Length
      - c.segment2Length * c.segment2Length)
    / (2 * c.segment1Length * c.segment2Length)

/-- `c2` of calculateIK: cosAngle2 clamped to [−1, 1] by
   Math.max(-1, Math.min(1, ·)). -/
noncomputable def c2 (t : Coordinates) (c : ArmConfig) : ℝ :=
  max (-1) (min 1 (cosAngle2 t c))

/-- `theta2Rad` of calculateIK: the elbow angle −acos(c2), in radians. -/
noncomputable def theta2Rad (t : Coordinates) (c : ArmConfig) : ℝ :=
  -Real.arccos (c2 t c)

/-- `k1 = l1 + l2·cos(theta2)` of calculateIK. -/
noncomputable def k1 (t : Coordinates) (c : ArmConfig) : ℝ :=
  c.segment1Length + c.segment2Length * Real.cos (theta2Rad t c)

/-- `k2 = l2·sin(theta2)` of calculateIK. -/
noncomputable def k2 (t : Coordinates) (c : ArmConfig) : ℝ :=
  c.segment2Length * Real.sin (theta2Rad t c)

/-- `theta1Rad` of calculateIK: the shoulder angle
   atan2(adjustY, adjustX) − atan2(k2, k1), in radians. -/
noncomputable def theta1Rad (t : Coordinates) (c : ArmConfig) : ℝ :=
  atan2 (adjustY t c) (adjustX t c) - atan2 (k2 t c) (k1 t c)

/-- calculateIK from src/services/kinematics.ts: base from atan2(x, z), the
   planar two-link solution for shoulder and elbow, every angle converted to
   degrees and floored to an integer; gripper left at 0. -/
noncomputable def calculateIK (target : Coordinates) (config : ArmConfig) :
    JointAngles :=
  { base := ⌊atan2 target.x target.z * 180 / Real.pi⌋,
    shoulder := ⌊theta1Rad target config * 180 / Real.pi⌋,
    elbow := ⌊theta2Rad target config * 180 / Real.pi⌋,
    gripper := 0 }

/-- Forward kinematics x = l1·cos θ1 + l2·cos(θ1 + θ2) of the 2-link arm
   (the reconstruction used by ArmSimulation and by the claim). -/
noncomputable def fkx (l1 l2 t1 t2 : ℝ) : ℝ :=
  l1 * Real.cos t1 + l2 * Real.cos (t1 + t2)

/-- Forward kinematics y = l1·sin θ1 + l2·sin(θ1 + θ2) of the 2-link arm. -/
noncomputable def fky (l1 l2 t1 t2 : ℝ) : ℝ :=
  l1 * Real.sin t1 + l2 * Real.sin (t1 + t2)

/-! ## JavaScript number semantics (for the totality claim)

`JSNum` models an IEEE-754 double as an exact real together with the special
values +Infinity, -Infinity and NaN (rounding and overflow are not modelled).
Only the operations that calculateIK uses are defined, each following the
ECMAScript specification of its special cases; the real model has no signed
zero, so every zero behaves as +0. -/

inductive JSNum where
  | fin (x : ℝ)
  | posInf
  | negInf
  | nan

namespace JSNum

/-- JS unary minus. -/
noncomputable def neg : JSNum → JSNum
  | fin x => fin (-x)
  | posInf => negInf
  | negInf => posInf
  | nan => nan

/-- JS addition. -/
noncomputable def add : JSNum → JSNum → JSNum
  | nan, _ => nan
  | _, nan => nan
  | posInf, negInf => nan
  | negInf, posInf => nan
  | posInf, _ => posInf
  | negInf, _ => negInf
  | _, posInf => posInf
  | _, negInf => negInf
  | fin x, fin y => fin (x + y)

/-- JS subtraction: x − y = x + (−y) in IEEE arithmetic. -/
noncomputable def sub (a b : JSNum) : JSNum := add a (neg b)

/-- JS multiplication (0 · ∞ = NaN). -/
noncomputable def mul : JSNum → JSNum → JSNum
  | nan, _ => nan
  | _, nan => nan
  | posInf, posInf => posInf
  | posInf, negInf => negInf
  | negInf, posInf => negInf
  | negInf, negInf => posInf
  | posInf, fin y => if y = 0 then nan else if 0 < y then posInf else negInf
  | negInf, fin y => if y = 0 then nan else if 0 < y then negInf else posInf
  | fin x, posInf => if x = 0 then nan else if 0 < x then posInf else negInf
  | fin x, negInf => if x = 0 then nan else if 0 < x then negInf else posInf
  | fin x, fin y => fin (x * y)

/-- JS division (0/0 = NaN, x/0 = ±∞ for x ≠ 0, ∞/∞ = NaN). -/
noncomputable def div : JSNum → JSNum → JSNum
  | nan, _ => nan
  | _, nan => nan
  | posInf, posInf => nan
  | posInf, negInf => nan
  | negInf, posInf => nan
  | negInf, negInf => nan
  | posInf, fin y => if 0 ≤ y then posInf else negInf
  | negInf, fin y => if 0 ≤ y then negInf else posInf
  | fin _, posInf => fin 0
  | fin _, negInf => fin 0
  | fin x, fin y =>
    if y = 0 then (if x = 0 then nan else if 0 < x then posInf else negInf)
    else fin (x / y)

/-- JS Math.sqrt (NaN on negative input). -/
noncomputable def sqrt : JSNum → JSNum
  | nan => nan
  | posInf => posInf
  | negInf => nan
  | fin x => if x < 0 then nan else fin (Real.sqrt x)

/-- JS Math.min (NaN-propagating). -/
noncomputable def jsmin : JSNum → JSNum → JSNum
  | nan, _ => nan
  | _, nan => nan
  | negInf, _ => negInf
  | _, negInf => negInf
  | posInf, b => b
  | a, posInf => a
  | fin x, fin y => fin (min x y)

/-- JS Math.max (NaN-propagating). -/
noncomputable def jsmax : JSNum → JSNum → JSNum
  | nan, _ => nan
  | _, nan => nan
  | posInf, _ => posInf
  | _, posInf => posInf
  | negInf, b => b
  | a, negInf => a
  | fin x, fin y => fin (max x y)

/-- JS Math.acos: NaN outside [−1, 1] and on non-finite input. -/
noncomputable def acos : JSNum → JSNum
  | fin x => if -1 ≤ x ∧ x ≤ 1 then fin (Real.arccos x) else nan
  | _ => nan

/-- JS Math.cos (NaN on non-finite input). -/
noncomputable def cos : JSNum → JSNum
  | fin x => fin (Real.cos x)
  | _ => nan

/-- JS Math.sin (NaN on non-finite input). -/
noncomputable def sin : JSNum → JSNum
  | fin x => fin (Real.sin x)
  | _ => nan

/-- JS Math.atan2(y, x) with its infinite-argument special cases. -/
noncomputable def jsatan2 : JSNum → JSNum → JSNum
  | nan, _ => nan
  | _, nan => nan
  | posInf, posInf => fin (Real.pi / 4)
  | posInf, negInf => fin (3 * Real.pi / 4)
  | posInf, fin _ => fin (Real.pi / 2)
  | negInf, posInf => fin (-(Real.pi / 4))
  | negInf, negInf => fin (-(3 * Real.pi / 4))
  | negInf, fin _ => fin (-(Real.pi / 2))
  | fin _, posInf => fin 0
  | fin y, negInf => if 0 ≤ y then fin Real.pi else fin (-Real.pi)
  | fin y, fin x => fin (Complex.arg ⟨x, y⟩)

/-- JS Math.floor. -/
noncomputable def floor : JSNum → JSNum
  | nan => nan
  | posInf => posInf
  | negInf => negInf
  | fin x => fin (⌊x⌋ : ℝ)

/-- The JS `<` comparison: false whenever either operand is NaN. -/
def lt : JSNum → JSNum → Prop
  | nan, _ => False
  | _, nan => False
  | negInf, negInf => False
  | negInf, _ => True
  | _, negInf => False
  | posInf, _ => False
  | fin _, posInf => True
  | fin x, fin y => x < y

end JSNum

/-- A target whose coordinates are JS numbers. -/
structure JSCoordinates where
  x : JSNum
  y : JSNum
  z : JSNum

/-- An ArmConfig whose fields are JS numbers. -/
structure JSArmConfig where
  segment1Length : JSNum
  segment2Length : JSNum
  baseRotation : JSNum

/-- JointAngles as produced by the JS-number evaluation of calculateIK. -/
structure JSJointAngles where
  base : JSNum
  shoulder : JSNum
  elbow : JSNum
  gripper : JSNum

/-- calculateIK from src/services/kinematics.ts re-evaluated in JS-number
   semantics, mirroring the source line by line (Math.PI stands for the
   exact π). -/
noncomputable def calculateIK_js (target : JSCoordinates)
    (config : JSArmConfig) : JSJointAngles :=
  let x := target.x
  let y := target.y
  let z := target.z
  let l1 := config.segment1Length
  let l2 := config.segment2Length
  let baseAngleRad := JSNum.jsatan2 x z
  let baseAngleDeg := (baseAngleRad.mul (JSNum.fin 180)).div (JSNum.fin Real.pi)
  let dist := JSNum.sqrt ((x.mul x).add (y.mul y))
  let maxReach := l1.add l2
  let adjustX :=
    if JSNum.lt maxReach dist then x.mul (maxReach.div dist) else x
  let adjustY :=
    if JSNum.lt maxReach dist then y.mul (maxReach.div dist) else y
  let rSquared := (adjustX.mul adjustX).add (adjustY.mul adjustY)
  let cosAngle2 := ((rSquared.sub (l1.mul l1)).sub (l2.mul l2)).div
    (((JSNum.fin 2).mul l1).mul l2)
  let c2 := JSNum.jsmax (JSNum.fin (-1)) (JSNum.jsmin (JSNum.fin 1) cosAngle2)
  let theta2Rad := (JSNum.acos c2).neg
  let k1 := l1.add (l2.mul (JSNum.cos theta2Rad))
  let k2 := l2.mul (JSNum.sin theta2Rad)
  let theta1Rad := (JSNum.jsatan2 adjustY adjustX).sub (JSNum.jsatan2 k2 k1)
  { base := JSNum.floor baseAngleDeg,
    shoulder :=
      JSNum.floor ((theta1Rad.mul (JSNum.fin 180)).div (JSNum.fin Real.pi)),
    elbow :=
      JSNum.floor ((theta2Rad.mul (JSNum.fin 180)).div (JSNum.fin Real.pi)),
    gripper := JSNum.fin 0 }

/-! ## Test fixtures for witnesses -/

/-- A 21-landmark hand with every point at the wrist: all four fingertips
   count as folded, so the classifier reads CLOSED_FIST. -/
def fistHand : List Landmark := List.replicate 21 ⟨0, 0⟩

/-- A 21-landmark hand with the wrist at the origin, the thumb tip away from
   the index tip, and every fingertip far from the wrist: OPEN_PALM. -/
def openHand : List Landmark :=
  ((List.replicate 21 (⟨1, 0⟩ : Landmark)).set 0 ⟨0, 0⟩).set 4 ⟨1, 1⟩

/-! ## Helper lemmas about the physics tick -/

/-- The post-tick grip flag of `updateBall`, as a single boolean formula. -/
theorem updateBall_isGripped (isGripping : Bool) (gx gy : ℚ) (b : Ball) :
    (updateBall isGripping gx gy b).isGripped
      = (isGripping && (hypotLt (b.x - gx) (b.y - gy) 30 || b.isGripped)) := by
  cases isGripping <;>
    cases hd : hypotLt (b.x - gx) (b.y - gy) 30 <;>
      cases hb : b.isGripped <;>
        simp [updateBall, hd, hb]

/-- When the interaction leaves the ball ungripped, `updateBall` performs
   exactly the free-fall tick described by the spec. -/
theorem updateBall_of_grip_false (isGripping : Bool) (gx gy : ℚ) (b : Ball)
    (h : (isGripping && (hypotLt (b.x - gx) (b.y - gy) 30 || b.isGripped))
          = false) :
    updateBall isGripping gx gy b = specFreeTick b := by
  have hflag : (if !isGripping then false
      else if isGripping && hypotLt (b.x - gx) (b.y - gy) 30 then true
      else b.isGripped) = false := by
    cases isGripping <;> cases hd : hypotLt (b.x - gx) (b.y - gy) 30 <;>
      cases hb : b.isGripped <;> simp_all
  simp only [updateBall, specFreeTick, hflag, Bool.false_eq_true, if_false]
  split_ifs <;> apply Ball.ext <;> dsimp only <;> first | rfl | ring

/-- The all-folded fist fixture classifies as CLOSED_FIST. -/
theorem analyzeGesture_fistHand :
    analyzeGesture fistHand = HandGesture.CLOSED_FIST := by
  unfold analyzeGesture
  rw [if_neg (by decide),
    if_pos (by norm_num [foldedCount, fistHand, hypotLt, List.getD])]

/-- The open-palm fixture classifies as OPEN_PALM. -/
theorem analyzeGesture_openHand :
    analyzeGesture openHand = HandGesture.OPEN_PALM := by
  unfold analyzeGesture
  rw [if_neg (by decide),
    if_neg (by norm_num [foldedCount, openHand, hypotLt, List.getD]),
    if_neg (by norm_num [pinchLt, openHand, hypotLt, List.getD])]

/-! ## C3: gripper interaction invariant -/

/-- C3: on every physics tick, the post-tick `isGripped` flag equals
   `isGripping && (pre-tick distance to the gripper < 30 || pre-tick
   isGripped)` — capture needs gripping plus proximity, release happens
   exactly when gripping stops and is not distance-gated — and every ball
   gripped post-tick sits at the gripper position offset 15 units downward
   with zero velocity. -/
theorem updateBall_grip_spec (isGripping : Bool) (gx gy : ℚ) (b : Ball) :
    (updateBall isGripping gx gy b).isGripped
      = (isGripping && (hypotLt (b.x - gx) (b.y - gy) 30 || b.isGripped)) ∧
    ((updateBall isGripping gx gy b).isGripped = true →
      (updateBall isGripping gx gy b).x = gx ∧
      (updateBall isGripping gx gy b).y = gy + 15 ∧
      (updateBall isGripping gx gy b).vx = 0 ∧
      (updateBall isGripping gx gy b).vy = 0) := by
  refine ⟨updateBall_isGripped isGripping gx gy b, ?_⟩
  intro hg
  cases isGripping <;>
    cases hd : hypotLt (b.x - gx) (b.y - gy) 30 <;>
      cases hb : b.isGripped <;>
        simp_all [updateBall]

/-- Witness for C3: a gripping gripper at the origin captures a free ball at
   distance √200 < 30 and pins it 15 units below the gripper with zero
   velocity. -/
theorem updateBall_grip_spec_witness :
    (updateBall true 0 0 ⟨1, 10, 10, "red", 15, false, 2, 3⟩).x = 0 ∧
    (updateBall true 0 0 ⟨1, 10, 10, "red", 15, false, 2, 3⟩).y = 0 + 15 ∧
    (updateBall true 0 0 ⟨1, 10, 10, "red", 15, false, 2, 3⟩).vx = 0 ∧
    (updateBall true 0 0 ⟨1, 10, 10, "red", 15, false, 2, 3⟩).vy = 0 :=
  (updateBall_grip_spec true 0 0 ⟨1, 10, 10, "red", 15, false, 2, 3⟩).2
    (by norm_num [updateBall, hypotLt])

/-! ## C5: free-ball physics -/

/-- C5: a ball left ungripped by the interaction step is updated in the
   spec's order — gravity +0.5 on vy, drag ×0.95 on vx, integration, floor
   clamp to BASE_Y − radius with vy ×(−0.6) and vx ×0.8, wall reflection of
   vx when x leaves [0, 600] — and in particular a ball resting on the floor
   with vy = 0 ends the tick with y = BASE_Y − radius and vy = −0.3. -/
theorem updateBall_free_spec (isGripping : Bool) (gx gy : ℚ) (b : Ball)
    (h : (isGripping && (hypotLt (b.x - gx) (b.y - gy) 30 || b.isGripped))
          = false) :
    updateBall isGripping gx gy b = specFreeTick b ∧
    (b.y = BASE_Y - b.radius → b.vy = 0 →
      (updateBall isGripping gx gy b).y = BASE_Y - b.radius ∧
      (updateBall isGripping gx gy b).vy = -0.3) := by
  refine ⟨updateBall_of_grip_false isGripping gx gy b h, ?_⟩
  intro hy hvy
  rw [updateBall_of_grip_false isGripping gx gy b h]
  have hfloor : b.y + (b.vy + 0.5) > BASE_Y - b.radius := by
    rw [hy, hvy]; norm_num
  constructor
  · show (specFreeTick b).y = BASE_Y - b.radius
    simp only [specFreeTick]
    rw [if_pos hfloor]
  · show (specFreeTick b).vy = -0.3
    simp only [specFreeTick]
    rw [if_pos hfloor, hvy]
    norm_num

/-- Witness for C5: a non-gripping tick on a ball resting on the floor
   (y = 335 = BASE_Y − 15, vy = 0) leaves it on the floor with vy = −0.3. -/
theorem updateBall_free_spec_witness :
    updateBall false 0 0 ⟨1, 100, 335, "red", 15, false, 0, 0⟩
      = specFreeTick ⟨1, 100, 335, "red", 15, false, 0, 0⟩ ∧
    (updateBall false 0 0 ⟨1, 100, 335, "red", 15, false, 0, 0⟩).y
      = BASE_Y - 15 ∧
    (updateBall false 0 0 ⟨1, 100, 335, "red", 15, false, 0, 0⟩).vy
      = -0.3 := by
  have h := updateBall_free_spec false 0 0 ⟨1, 100, 335, "red", 15, false, 0, 0⟩
    (by simp)
  exact ⟨h.1, (h.2 (by norm_num [BASE_Y]) rfl).1,
    (h.2 (by norm_num [BASE_Y]) rfl).2⟩

/-! ## C4: gesture classification -/

/-- C4: analyzeGesture returns NONE on an empty (or absent) landmark list;
   on a 21-landmark hand it returns CLOSED_FIST whenever at least three of
   the fingertips 8/12/16/20 lie within 0.25 of the wrist, regardless of the
   pinch distance; otherwise PINCH when the thumb-index distance is below
   0.05; otherwise OPEN_PALM — first match wins. -/
theorem analyzeGesture_spec (lm : List Landmark) (h : lm.length = 21) :
    analyzeGesture [] = HandGesture.NONE ∧
    (3 ≤ foldedCount lm → analyzeGesture lm = HandGesture.CLOSED_FIST) ∧
    (foldedCount lm < 3 → pinchLt lm = true →
      analyzeGesture lm = HandGesture.PINCH) ∧
    (foldedCount lm < 3 → pinchLt lm = false →
      analyzeGesture lm = HandGesture.OPEN_PALM) := by
  have hne : lm ≠ [] := by
    intro he; rw [he] at h; simp at h
  refine ⟨rfl, ?_, ?_, ?_⟩
  · intro h1
    unfold analyzeGesture
    rw [if_neg hne, if_pos (by exact h1)]
  · intro h1 h2
    unfold analyzeGesture
    rw [if_neg hne, if_neg (by omega), if_pos h2]
  · intro h1 h2
    unfold analyzeGesture
    rw [if_neg hne, if_neg (by omega), if_neg (by simp [h2])]

/-- Witness for C4: the all-folded fist hand classifies as CLOSED_FIST (its
   pinch distance is 0, which would otherwise be a PINCH), and the open hand
   classifies as OPEN_PALM. -/
theorem analyzeGesture_spec_witness :
    analyzeGesture fistHand = HandGesture.CLOSED_FIST ∧
    analyzeGesture openHand = HandGesture.OPEN_PALM :=
  ⟨(analyzeGesture_spec fistHand (by decide)).2.1
      (by norm_num [foldedCount, fistHand, hypotLt, List.getD]),
   (analyzeGesture_spec openHand (by decide)).2.2.2
      (by norm_num [foldedCount, openHand, hypotLt, List.getD])
      (by norm_num [pinchLt, openHand, hypotLt, List.getD])⟩

/-! ## C6: coordinate mapper -/

/-- C6: mapInputToCoordinates clamps both inputs to [0, 1] and returns
   exactly x = clampedX·CANVAS_WIDTH − BASE_X, y = BASE_Y −
   clampedY·CANVAS_HEIGHT, z = 0; in particular map(0.5, 1.0, cfg) has
   y = BASE_Y − CANVAS_HEIGHT, the topmost workspace coordinate. -/
theorem mapInputToCoordinates_spec (normX normY : ℝ) (cfg : ArmConfig) :
    (mapInputToCoordinates normX normY cfg).x
      = max 0 (min 1 normX) * (CANVAS_WIDTH : ℝ) - (BASE_X : ℝ) ∧
    (mapInputToCoordinates normX normY cfg).y
      = (BASE_Y : ℝ) - max 0 (min 1 normY) * (CANVAS_HEIGHT : ℝ) ∧
    (mapInputToCoordinates normX normY cfg).z = 0 ∧
    (mapInputToCoordinates (1/2) 1 cfg).y
      = (BASE_Y : ℝ) - (CANVAS_HEIGHT : ℝ) := by
  refine ⟨rfl, rfl, rfl, ?_⟩
  have hc : max (0 : ℝ) (min 1 1) = 1 := by norm_num
  simp only [mapInputToCoordinates, hc, one_mul]

/-! ## C7: tracking-loop pointer freeze -/

/-- C7: a tracking frame whose classified gesture is CLOSED_FIST leaves the
   shared pointer sample unchanged (as does a frame with no detected hand),
   while a frame with a detected 21-landmark hand and any other gesture
   updates the pointer to (1 − landmark5.x, landmark5.y). -/
theorem trackingFrame_pointer_spec (st : TrackState) (lms : List Landmark) :
    (trackingFrame st none).inputPos = st.inputPos ∧
    (analyzeGesture lms = HandGesture.CLOSED_FIST →
      (trackingFrame st (some lms)).inputPos = st.inputPos) ∧
    (lms.length = 21 → analyzeGesture lms ≠ HandGesture.CLOSED_FIST →
      (trackingFrame st (some lms)).inputPos
        = (1 - (lms.getD 5 ⟨0, 0⟩).x, (lms.getD 5 ⟨0, 0⟩).y)) := by
  refine ⟨rfl, ?_, ?_⟩
  · intro hfist
    simp [trackingFrame, hfist]
  · intro _ hfist
    simp [trackingFrame, hfist]

/-- Witness for C7: a fist frame keeps the pointer at (1/2, 1/2); an
   open-palm frame moves it to (1 − 1, 0) = (0, 0). -/
theorem trackingFrame_pointer_spec_witness :
    (trackingFrame ⟨(1/2, 1/2), HandGesture.NONE⟩ (some fistHand)).inputPos
      = (1/2, 1/2) ∧
    (trackingFrame ⟨(1/2, 1/2), HandGesture.NONE⟩ (some openHand)).inputPos
      = (0, 0) := by
  constructor
  · exact (trackingFrame_pointer_spec ⟨(1/2, 1/2), HandGesture.NONE⟩
      fistHand).2.1 analyzeGesture_fistHand
  · have h := (trackingFrame_pointer_spec ⟨(1/2, 1/2), HandGesture.NONE⟩
      openHand).2.2 (by decide) (by rw [analyzeGesture_openHand]; decide)
    rw [h]
    norm_num [openHand, List.getD, Prod.mk.injEq]

/-! ## C9: configuration form does not enforce the positivity invariant -/

/-- C9 counterexample: starting from the positive default config
   (150, 120), the operator entering the string "0" (parseFloat result 0)
   into the segment-1 field produces segment1Length = 0, violating the
   invariant that segment lengths stay strictly positive. -/
theorem handleChange_counterexample :
    (0 : ℝ) < (⟨150, 120, 0⟩ : ArmConfig).segment1Length ∧
    (0 : ℝ) < (⟨150, 120, 0⟩ : ArmConfig).segment2Length ∧
    (handleChange ⟨150, 120, 0⟩ ConfigKey.segment1Length
      (some 0)).segment1Length = 0 ∧
    ¬ (0 : ℝ) < (handleChange ⟨150, 120, 0⟩ ConfigKey.segment1Length
      (some 0)).segment1Length := by
  refine ⟨by norm_num, by norm_num, rfl, ?_⟩
  simp [handleChange]

/-- C9 amended: handleChange preserves the positivity of both segment
   lengths only when the entered string parses to a positive number; a NaN
   parse (empty or non-numeric input) is replaced by 0 and a non-positive
   parse is stored as-is, so such inputs break the invariant. -/
theorem handleChange_pos_spec (cfg : ArmConfig) (key : ConfigKey) (q : ℝ)
    (h1 : 0 < cfg.segment1Length) (h2 : 0 < cfg.segment2Length)
    (hq : 0 < q) :
    0 < (handleChange cfg key (some q)).segment1Length ∧
    0 < (handleChange cfg key (some q)).segment2Length := by
  cases key <;> constructor <;> simp [handleChange] <;> assumption

/-- Witness for C9 amended: entering 200 into the segment-1 field of the
   default config keeps both lengths positive. -/
theorem handleChange_pos_spec_witness :
    0 < (handleChange ⟨150, 120, 0⟩ ConfigKey.segment1Length
      (some 200)).segment1Length ∧
    0 < (handleChange ⟨150, 120, 0⟩ ConfigKey.segment1Length
      (some 200)).segment2Length :=
  handleChange_pos_spec ⟨150, 120, 0⟩ ConfigKey.segment1Length 200
    (by norm_num) (by norm_num) (by norm_num)

/-! ## Helper lemmas for the inverse-kinematics analysis -/

/-- The point at distance √(a² + b²) in the direction atan2(b, a) is (a, b). -/
theorem sqrt_trig_atan2 (a b : ℝ) :
    Real.sqrt (a ^ 2 + b ^ 2) * Real.cos (atan2 b a) = a ∧
    Real.sqrt (a ^ 2 + b ^ 2) * Real.sin (atan2 b a) = b := by
  by_cases hz : (⟨a, b⟩ : ℂ) = 0
  · have ha : a = 0 := congrArg Complex.re hz
    have hb : b = 0 := congrArg Complex.im hz
    subst ha; subst hb
    norm_num
  · have habs : Complex.abs ⟨a, b⟩ = Real.sqrt (a ^ 2 + b ^ 2) := by
      rw [Complex.abs_apply, Complex.normSq_mk]
      ring_nf
    have hne : Real.sqrt (a ^ 2 + b ^ 2) ≠ 0 := by
      rw [← habs]
      exact (Complex.abs.pos hz).ne'
    have hcos : Real.cos (atan2 b a) = a / Real.sqrt (a ^ 2 + b ^ 2) := by
      rw [atan2, Complex.cos_arg hz, habs]
    have hsin : Real.sin (atan2 b a) = b / Real.sqrt (a ^ 2 + b ^ 2) := by
      rw [atan2, Complex.sin_arg, habs]
    rw [hcos, hsin]
    constructor <;> field_simp

/-- Rotating the vector (a, b) by the angle φ − atan2(b, a) lands on the ray
   of direction φ at radius √(a² + b²). -/
theorem rot_identity (a b phi : ℝ) :
    a * Real.cos (phi - atan2 b a) - b * Real.sin (phi - atan2 b a)
      = Real.sqrt (a ^ 2 + b ^ 2) * Real.cos phi ∧
    a * Real.sin (phi - atan2 b a) + b * Real.cos (phi - atan2 b a)
      = Real.sqrt (a ^ 2 + b ^ 2) * Real.sin phi := by
  obtain ⟨hca, hsa⟩ := sqrt_trig_atan2 a b
  have hpyth := Real.sin_sq_add_cos_sq (atan2 b a)
  constructor
  · rw [Real.cos_sub, Real.sin_sub]
    linear_combination
      (-(Real.cos phi * Real.cos (atan2 b a)
          + Real.sin phi * Real.sin (atan2 b a))) * hca
      + (Real.sin phi * Real.cos (atan2 b a)
          - Real.cos phi * Real.sin (atan2 b a)) * hsa
      + Real.sqrt (a ^ 2 + b ^ 2) * Real.cos phi * hpyth
  · rw [Real.sin_sub, Real.cos_sub]
    linear_combination
      (-(Real.sin phi * Real.cos (atan2 b a)
          - Real.cos phi * Real.sin (atan2 b a))) * hca
      + (-(Real.cos phi * Real.cos (atan2 b a)
          + Real.sin phi * Real.sin (atan2 b a))) * hsa
      + Real.sqrt (a ^ 2 + b ^ 2) * Real.sin phi * hpyth

/-- The standard 2-link IK shoulder formula hits (a, b) exactly whenever the
   link vector (l1 + l2·cos θ2, l2·sin θ2) has the same norm as (a, b). -/
theorem fk_reaches (l1 l2 a b t2 : ℝ)
    (hk : (l1 + l2 * Real.cos t2) ^ 2 + (l2 * Real.sin t2) ^ 2
            = a ^ 2 + b ^ 2) :
    fkx l1 l2 (atan2 b a - atan2 (l2 * Real.sin t2) (l1 + l2 * Real.cos t2))
        t2 = a ∧
    fky l1 l2 (atan2 b a - atan2 (l2 * Real.sin t2) (l1 + l2 * Real.cos t2))
        t2 = b := by
  obtain ⟨hrot1, hrot2⟩ :=
    rot_identity (l1 + l2 * Real.cos t2) (l2 * Real.sin t2) (atan2 b a)
  obtain ⟨hca, hsa⟩ := sqrt_trig_atan2 a b
  rw [hk] at hrot1 hrot2
  constructor
  · rw [fkx]
    have hexp : l1 * Real.cos (atan2 b a
          - atan2 (l2 * Real.sin t2) (l1 + l2 * Real.cos t2))
        + l2 * Real.cos ((atan2 b a
          - atan2 (l2 * Real.sin t2) (l1 + l2 * Real.cos t2)) + t2)
        = (l1 + l2 * Real.cos t2) * Real.cos (atan2 b a
            - atan2 (l2 * Real.sin t2) (l1 + l2 * Real.cos t2))
          - (l2 * Real.sin t2) * Real.sin (atan2 b a
            - atan2 (l2 * Real.sin t2) (l1 + l2 * Real.cos t2)) := by
      rw [Real.cos_add]
      ring
    rw [hexp, hrot1, hca]
  · rw [fky]
    have hexp : l1 * Real.sin (atan2 b a
          - atan2 (l2 * Real.sin t2) (l1 + l2 * Real.cos t2))
        + l2 * Real.sin ((atan2 b a
          - atan2 (l2 * Real.sin t2) (l1 + l2 * Real.cos t2)) + t2)
        = (l1 + l2 * Real.cos t2) * Real.sin (atan2 b a
            - atan2 (l2 * Real.sin t2) (l1 + l2 * Real.cos t2))
          + (l2 * Real.sin t2) * Real.cos (atan2 b a
            - atan2 (l2 * Real.sin t2) (l1 + l2 * Real.cos t2)) := by
      rw [Real.sin_add]
      ring
    rw [hexp, hrot2, hsa]

/-- The clamped cosine is always in [−1, 1]. -/
theorem c2_mem (t : Coordinates) (c : ArmConfig) :
    -1 ≤ c2 t c ∧ c2 t c ≤ 1 :=
  ⟨le_max_left _ _, max_le (by norm_num) (min_le_left _ _)⟩

/-- The cosine of the produced elbow angle is exactly the clamped cosine. -/
theorem cos_theta2Rad (t : Coordinates) (c : ArmConfig) :
    Real.cos (theta2Rad t c) = c2 t c := by
  rw [theta2Rad, Real.cos_neg, Real.cos_arccos (c2_mem t c).1 (c2_mem t c).2]

/-- The squared travel of the planar distance. -/
theorem distTo_sq (t : Coordinates) :
    distTo t ^ 2 = t.x ^ 2 + t.y ^ 2 := by
  rw [distTo, Real.sq_sqrt (add_nonneg (mul_self_nonneg _) (mul_self_nonneg _))]
  ring

/-! ## C1: forward-kinematics round trip -/

/-- C1 amended: for positive segment lengths and any target with
   |l1 − l2| ≤ dist, the real-valued angles theta1Rad/theta2Rad — whose
   floored degree values calculateIK returns — reconstruct the target
   exactly when dist ≤ l1 + l2, and reconstruct the reach-clamped point
   target·((l1+l2)/dist) on the boundary circle of radius l1 + l2 when
   dist > l1 + l2. -/
theorem calculateIK_fk_roundtrip (t : Coordinates) (cfg : ArmConfig)
    (h1 : 0 < cfg.segment1Length) (h2 : 0 < cfg.segment2Length)
    (hlow : |cfg.segment1Length - cfg.segment2Length| ≤ distTo t) :
    (calculateIK t cfg).shoulder = ⌊theta1Rad t cfg * 180 / Real.pi⌋ ∧
    (calculateIK t cfg).elbow = ⌊theta2Rad t cfg * 180 / Real.pi⌋ ∧
    (distTo t ≤ cfg.segment1Length + cfg.segment2Length →
      fkx cfg.segment1Length cfg.segment2Length (theta1Rad t cfg)
          (theta2Rad t cfg) = t.x ∧
      fky cfg.segment1Length cfg.segment2Length (theta1Rad t cfg)
          (theta2Rad t cfg) = t.y) ∧
    (cfg.segment1Length + cfg.segment2Length < distTo t →
      fkx cfg.segment1Length cfg.segment2Length (theta1Rad t cfg)
          (theta2Rad t cfg)
        = t.x * ((cfg.segment1Length + cfg.segment2Length) / distTo t) ∧
      fky cfg.segment1Length cfg.segment2Length (theta1Rad t cfg)
          (theta2Rad t cfg)
        = t.y * ((cfg.segment1Length + cfg.segment2Length) / distTo t) ∧
      fkx cfg.segment1Length cfg.segment2Length (theta1Rad t cfg)
            (theta2Rad t cfg) ^ 2
          + fky cfg.segment1Length cfg.segment2Length (theta1Rad t cfg)
            (theta2Rad t cfg) ^ 2
        = (cfg.segment1Length + cfg.segment2Length) ^ 2) := by
  have hden : (0 : ℝ) < 2 * cfg.segment1Length * cfg.segment2Length := by
    positivity
  have hdnn : 0 ≤ distTo t := Real.sqrt_nonneg _
  refine ⟨rfl, rfl, ?_, ?_⟩
  · -- reachable case: the clamp is the identity and the cosine stays in range
    intro hin
    have hnot : ¬ distTo t > cfg.segment1Length + cfg.segment2Length :=
      not_lt.mpr hin
    have hax : adjustX t cfg = t.x := by
      simp only [adjustX]; rw [if_neg hnot]
    have hay : adjustY t cfg = t.y := by
      simp only [adjustY]; rw [if_neg hnot]
    have hupper : cosAngle2 t cfg ≤ 1 := by
      rw [cosAngle2, hax, hay, div_le_one hden]
      nlinarith [distTo_sq t, pow_le_pow_left₀ hdnn hin 2]
    have hlower : -1 ≤ cosAngle2 t cfg := by
      rw [cosAngle2, hax, hay, le_div_iff₀ hden]
      nlinarith [distTo_sq t, pow_le_pow_left₀ (abs_nonneg _) hlow 2,
        sq_abs (cfg.segment1Length - cfg.segment2Length)]
    have hc2eq : c2 t cfg = cosAngle2 t cfg := by
      rw [c2, min_eq_right hupper, max_eq_right hlower]
    have hnum : 2 * cfg.segment1Length * cfg.segment2Length * cosAngle2 t cfg
        = t.x * t.x + t.y * t.y
          - cfg.segment1Length * cfg.segment1Length
          - cfg.segment2Length * cfg.segment2Length := by
      rw [cosAngle2, hax, hay]
      field_simp
    have hpyth := Real.sin_sq_add_cos_sq (theta2Rad t cfg)
    rw [cos_theta2Rad, hc2eq] at hpyth
    have hk : (cfg.segment1Length
          + cfg.segment2Length * Real.cos (theta2Rad t cfg)) ^ 2
        + (cfg.segment2Length * Real.sin (theta2Rad t cfg)) ^ 2
        = t.x ^ 2 + t.y ^ 2 := by
      rw [cos_theta2Rad, hc2eq]
      linear_combination cfg.segment2Length ^ 2 * hpyth + hnum
    have hfk := fk_reaches cfg.segment1Length cfg.segment2Length t.x t.y
      (theta2Rad t cfg) hk
    have hth1 : theta1Rad t cfg
        = atan2 t.y t.x
          - atan2 (cfg.segment2Length * Real.sin (theta2Rad t cfg))
            (cfg.segment1Length
              + cfg.segment2Length * Real.cos (theta2Rad t cfg)) := by
      simp only [theta1Rad, k1, k2, hax, hay]
    rw [hth1]
    exact hfk
  · -- unreachable case: the clamp projects onto the reach circle
    intro hout
    have hm : 0 < cfg.segment1Length + cfg.segment2Length := by linarith
    have hd : 0 < distTo t := lt_trans hm hout
    have hax : adjustX t cfg
        = t.x * ((cfg.segment1Length + cfg.segment2Length) / distTo t) := by
      simp only [adjustX]; rw [if_pos hout]
    have hay : adjustY t cfg
        = t.y * ((cfg.segment1Length + cfg.segment2Length) / distTo t) := by
      simp only [adjustY]; rw [if_pos hout]
    have hab : (t.x * ((cfg.segment1Length + cfg.segment2Length) / distTo t)) ^ 2
        + (t.y * ((cfg.segment1Length + cfg.segment2Length) / distTo t)) ^ 2
        = (cfg.segment1Length + cfg.segment2Length) ^ 2 := by
      have hsplit : (t.x * ((cfg.segment1Length + cfg.segment2Length)
            / distTo t)) ^ 2
          + (t.y * ((cfg.segment1Length + cfg.segment2Length) / distTo t)) ^ 2
          = (t.x ^ 2 + t.y ^ 2)
            * ((cfg.segment1Length + cfg.segment2Length) / distTo t) ^ 2 := by
        ring
      rw [hsplit, ← distTo_sq t, div_pow]
      field_simp
    have hcos1 : cosAngle2 t cfg = 1 := by
      rw [cosAngle2, hax, hay, div_eq_one_iff_eq hden.ne']
      nlinarith [hab]
    have hc2one : c2 t cfg = 1 := by
      rw [c2, hcos1]
      simp
    have htheta2 : theta2Rad t cfg = 0 := by
      rw [theta2Rad, hc2one, Real.arccos_one, neg_zero]
    have hk : (cfg.segment1Length
          + cfg.segment2Length * Real.cos (theta2Rad t cfg)) ^ 2
        + (cfg.segment2Length * Real.sin (theta2Rad t cfg)) ^ 2
        = (t.x * ((cfg.segment1Length + cfg.segment2Length) / distTo t)) ^ 2
          + (t.y * ((cfg.segment1Length + cfg.segment2Length)
              / distTo t)) ^ 2 := by
      rw [htheta2, Real.cos_zero, Real.sin_zero, hab]
      ring
    have hfk := fk_reaches cfg.segment1Length cfg.segment2Length
      (t.x * ((cfg.segment1Length + cfg.segment2Length) / distTo t))
      (t.y * ((cfg.segment1Length + cfg.segment2Length) / distTo t))
      (theta2Rad t cfg) hk
    have hth1 : theta1Rad t cfg
        = atan2 (t.y * ((cfg.segment1Length + cfg.segment2Length) / distTo t))
            (t.x * ((cfg.segment1Length + cfg.segment2Length) / distTo t))
          - atan2 (cfg.segment2Length * Real.sin (theta2Rad t cfg))
            (cfg.segment1Length
              + cfg.segment2Length * Real.cos (theta2Rad t cfg)) := by
      simp only [theta1Rad, k1, k2, hax, hay]
    refine ⟨?_, ?_, ?_⟩
    · rw [hth1]; exact hfk.1
    · rw [hth1]; exact hfk.2
    · rw [hth1, hfk.1, hfk.2]; exact hab

/-- Witness for C1: at the symmetric config (1, 1) every distance satisfies
   |l1 − l2| ≤ dist, and the origin target is reconstructed exactly. -/
theorem calculateIK_fk_roundtrip_witness :
    (calculateIK ⟨0, 0, 0⟩ ⟨1, 1, 0⟩).shoulder
      = ⌊theta1Rad ⟨0, 0, 0⟩ ⟨1, 1, 0⟩ * 180 / Real.pi⌋ ∧
    (calculateIK ⟨0, 0, 0⟩ ⟨1, 1, 0⟩).elbow
      = ⌊theta2Rad ⟨0, 0, 0⟩ ⟨1, 1, 0⟩ * 180 / Real.pi⌋ ∧
    (distTo ⟨0, 0, 0⟩ ≤ (1 : ℝ) + 1 →
      fkx 1 1 (theta1Rad ⟨0, 0, 0⟩ ⟨1, 1, 0⟩) (theta2Rad ⟨0, 0, 0⟩ ⟨1, 1, 0⟩)
        = 0 ∧
      fky 1 1 (theta1Rad ⟨0, 0, 0⟩ ⟨1, 1, 0⟩) (theta2Rad ⟨0, 0, 0⟩ ⟨1, 1, 0⟩)
        = 0) := by
  have h := calculateIK_fk_roundtrip ⟨0, 0, 0⟩ ⟨1, 1, 0⟩ (by norm_num)
    (by norm_num) (by simp [distTo])
  exact ⟨h.1, h.2.1, h.2.2.1⟩

/-- C1 counterexample: with l1 = 2, l2 = 1 and the in-range target
   (1/2, 0) — inside the inner dead zone dist < |l1 − l2| — calculateIK
   returns shoulder 0°, elbow −180°, and the forward-kinematics
   reconstruction of those angles lands at x = 1, a full 1/2 away from the
   target's x = 1/2: the claimed round trip fails for reachable-by-distance
   targets inside the annulus hole. -/
theorem calculateIK_roundtrip_counterexample :
    distTo ⟨1/2, 0, 0⟩ ≤ (2 : ℝ) + 1 ∧
    (calculateIK ⟨1/2, 0, 0⟩ ⟨2, 1, 0⟩).shoulder = 0 ∧
    (calculateIK ⟨1/2, 0, 0⟩ ⟨2, 1, 0⟩).elbow = -180 ∧
    fkx 2 1 (((calculateIK ⟨1/2, 0, 0⟩ ⟨2, 1, 0⟩).shoulder : ℝ)
              * Real.pi / 180)
        (((calculateIK ⟨1/2, 0, 0⟩ ⟨2, 1, 0⟩).elbow : ℝ) * Real.pi / 180)
      = 1 ∧
    fky 2 1 (((calculateIK ⟨1/2, 0, 0⟩ ⟨2, 1, 0⟩).shoulder : ℝ)
              * Real.pi / 180)
        (((calculateIK ⟨1/2, 0, 0⟩ ⟨2, 1, 0⟩).elbow : ℝ) * Real.pi / 180)
      = 0 ∧
    (⟨1/2, 0, 0⟩ : Coordinates).x = 1/2 ∧
    ¬ |(1 : ℝ) - 1/2| < 1/4 := by
  have hdist : distTo ⟨1/2, 0, 0⟩ = 1/2 := by
    rw [distTo]
    show Real.sqrt ((1/2 : ℝ) * (1/2) + 0 * 0) = 1/2
    rw [show ((1/2 : ℝ) * (1/2) + 0 * 0) = ((1/2 : ℝ)) ^ 2 by norm_num,
      Real.sqrt_sq (by norm_num : (0:ℝ) ≤ 1/2)]
  have hnot : ¬ distTo ⟨1/2, 0, 0⟩
      > (⟨2, 1, 0⟩ : ArmConfig).segment1Length
        + (⟨2, 1, 0⟩ : ArmConfig).segment2Length := by
    rw [hdist]; norm_num
  have hax : adjustX ⟨1/2, 0, 0⟩ ⟨2, 1, 0⟩ = 1/2 := by
    simp only [adjustX]; rw [if_neg hnot]
  have hay : adjustY ⟨1/2, 0, 0⟩ ⟨2, 1, 0⟩ = 0 := by
    simp only [adjustY]; rw [if_neg hnot]
  have hcos : cosAngle2 ⟨1/2, 0, 0⟩ ⟨2, 1, 0⟩ = -19/16 := by
    rw [cosAngle2, hax, hay]
    norm_num
  have hc2 : c2 ⟨1/2, 0, 0⟩ ⟨2, 1, 0⟩ = -1 := by
    rw [c2, hcos]
    rw [min_eq_right (by norm_num : (-19/16 : ℝ) ≤ 1),
      max_eq_left (by norm_num : (-19/16 : ℝ) ≤ -1)]
  have htheta2 : theta2Rad ⟨1/2, 0, 0⟩ ⟨2, 1, 0⟩ = -Real.pi := by
    rw [theta2Rad, hc2, Real.arccos_neg_one]
  have hk1 : k1 ⟨1/2, 0, 0⟩ ⟨2, 1, 0⟩ = 1 := by
    rw [k1, htheta2, Real.cos_neg, Real.cos_pi]
    norm_num
  have hk2 : k2 ⟨1/2, 0, 0⟩ ⟨2, 1, 0⟩ = 0 := by
    rw [k2, htheta2, Real.sin_neg, Real.sin_pi]
    norm_num
  have harg0 : ∀ r : ℝ, 0 ≤ r → atan2 0 r = 0 := by
    intro r hr
    rw [atan2, show (⟨r, 0⟩ : ℂ) = (r : ℂ) from rfl,
      Complex.arg_ofReal_of_nonneg hr]
  have htheta1 : theta1Rad ⟨1/2, 0, 0⟩ ⟨2, 1, 0⟩ = 0 := by
    rw [theta1Rad, hax, hay, hk1, hk2, harg0 (1/2) (by norm_num),
      harg0 1 (by norm_num), sub_zero]
  have hshoulder : (calculateIK ⟨1/2, 0, 0⟩ ⟨2, 1, 0⟩).shoulder = 0 := by
    show ⌊theta1Rad ⟨1/2, 0, 0⟩ ⟨2, 1, 0⟩ * 180 / Real.pi⌋ = 0
    rw [htheta1]
    norm_num
  have helbow : (calculateIK ⟨1/2, 0, 0⟩ ⟨2, 1, 0⟩).elbow = -180 := by
    show ⌊theta2Rad ⟨1/2, 0, 0⟩ ⟨2, 1, 0⟩ * 180 / Real.pi⌋ = -180
    rw [htheta2, show -Real.pi * 180 / Real.pi = -180 by
      rw [div_eq_iff Real.pi_ne_zero]; ring]
    norm_num
  refine ⟨by rw [hdist]; norm_num, hshoulder, helbow, ?_, ?_, rfl,
    by rw [abs_of_nonneg (by norm_num : (0:ℝ) ≤ 1 - 1/2)]; norm_num⟩
  · rw [hshoulder, helbow, fkx]
    push_cast
    rw [show (0 : ℝ) * Real.pi / 180 = 0 by ring,
      show (-180 : ℝ) * Real.pi / 180 = -Real.pi by
        rw [div_eq_iff (by norm_num : (180 : ℝ) ≠ 0)]; ring]
    rw [Real.cos_zero, zero_add, Real.cos_neg, Real.cos_pi]
    norm_num
  · rw [hshoulder, helbow, fky]
    push_cast
    rw [show (0 : ℝ) * Real.pi / 180 = 0 by ring,
      show (-180 : ℝ) * Real.pi / 180 = -Real.pi by
        rw [div_eq_iff (by norm_num : (180 : ℝ) ≠ 0)]; ring]
    rw [Real.sin_zero, zero_add, Real.sin_neg, Real.sin_pi]
    norm_num

/-! ## C8: the elbow angle is always in [−180, 0] -/

/-- C8: for positive segment lengths (indeed for every config), the elbow
   angle returned by calculateIK is between −180 and 0 degrees: only the
   elbow-down branch −acos(·) ∈ [−π, 0] is ever produced, and flooring the
   degree value keeps it in [−180, 0]. -/
theorem calculateIK_elbow_range (t : Coordinates) (cfg : ArmConfig)
    (_h1 : 0 < cfg.segment1Length) (_h2 : 0 < cfg.segment2Length) :
    -180 ≤ (calculateIK t cfg).elbow ∧ (calculateIK t cfg).elbow ≤ 0 := by
  have ha0 : 0 ≤ Real.arccos (c2 t cfg) := Real.arccos_nonneg _
  have hapi : Real.arccos (c2 t cfg) ≤ Real.pi := Real.arccos_le_pi _
  have hpi : 0 < Real.pi := Real.pi_pos
  constructor
  · show (-180 : ℤ) ≤ ⌊theta2Rad t cfg * 180 / Real.pi⌋
    rw [Int.le_floor, theta2Rad]
    push_cast
    rw [le_div_iff₀ hpi]
    nlinarith
  · show ⌊theta2Rad t cfg * 180 / Real.pi⌋ ≤ 0
    apply Int.floor_nonpos
    apply div_nonpos_of_nonpos_of_nonneg _ hpi.le
    rw [theta2Rad]
    nlinarith

/-- Witness for C8: at the default-like config (1, 1) and the origin target
   the elbow is within [−180, 0]. -/
theorem calculateIK_elbow_range_witness :
    -180 ≤ (calculateIK ⟨0, 0, 0⟩ ⟨1, 1, 0⟩).elbow ∧
    (calculateIK ⟨0, 0, 0⟩ ⟨1, 1, 0⟩).elbow ≤ 0 :=
  calculateIK_elbow_range ⟨0, 0, 0⟩ ⟨1, 1, 0⟩ (by norm_num) (by norm_num)

/-! ## C10: calculateIK ignores baseRotation -/

/-- C10: calculateIK is independent of config.baseRotation — two configs
   that differ only in baseRotation produce identical JointAngles for every
   target (noninterference). -/
theorem calculateIK_baseRotation_independent (t : Coordinates)
    (l1 l2 br br' : ℝ) :
    calculateIK t ⟨l1, l2, br⟩ = calculateIK t ⟨l1, l2, br'⟩ := rfl

/-! ## Evaluation rules for JSNum operations on finite operands -/

/-- Addition of finite JS numbers is real addition. -/
theorem jsadd_fin (a b : ℝ) :
    (JSNum.fin a).add (JSNum.fin b) = JSNum.fin (a + b) := rfl

/-- Multiplication of finite JS numbers is real multiplication. -/
theorem jsmul_fin (a b : ℝ) :
    (JSNum.fin a).mul (JSNum.fin b) = JSNum.fin (a * b) := rfl

/-- Negation of a finite JS number. -/
theorem jsneg_fin (a : ℝ) : (JSNum.fin a).neg = JSNum.fin (-a) := rfl

/-- Subtraction of finite JS numbers is real subtraction. -/
theorem jssub_fin (a b : ℝ) :
    (JSNum.fin a).sub (JSNum.fin b) = JSNum.fin (a - b) := by
  rw [JSNum.sub, jsneg_fin, jsadd_fin, sub_eq_add_neg]

/-- Division of finite JS numbers with nonzero denominator. -/
theorem jsdiv_fin (a b : ℝ) (hb : b ≠ 0) :
    (JSNum.fin a).div (JSNum.fin b) = JSNum.fin (a / b) := by
  simp [JSNum.div, hb]

/-- Square root of a nonnegative finite JS number. -/
theorem jssqrt_fin (a : ℝ) (ha : 0 ≤ a) :
    JSNum.sqrt (JSNum.fin a) = JSNum.fin (Real.sqrt a) := by
  simp [JSNum.sqrt, not_lt.mpr ha]

/-- Math.min on finite JS numbers. -/
theorem jsmin_fin (a b : ℝ) :
    JSNum.jsmin (JSNum.fin a) (JSNum.fin b) = JSNum.fin (min a b) := rfl

/-- Math.max on finite JS numbers. -/
theorem jsmax_fin (a b : ℝ) :
    JSNum.jsmax (JSNum.fin a) (JSNum.fin b) = JSNum.fin (max a b) := rfl

/-- Math.acos inside the domain. -/
theorem jsacos_fin (a : ℝ) (h1 : -1 ≤ a) (h2 : a ≤ 1) :
    JSNum.acos (JSNum.fin a) = JSNum.fin (Real.arccos a) := by
  simp [JSNum.acos, h1, h2]

/-- Math.cos of a finite JS number. -/
theorem jscos_fin (a : ℝ) : JSNum.cos (JSNum.fin a) = JSNum.fin (Real.cos a) :=
  rfl

/-- Math.sin of a finite JS number. -/
theorem jssin_fin (a : ℝ) : JSNum.sin (JSNum.fin a) = JSNum.fin (Real.sin a) :=
  rfl

/-- Math.atan2 of finite JS numbers is the complex argument, i.e. atan2. -/
theorem jsatan2_fin (y x : ℝ) :
    JSNum.jsatan2 (JSNum.fin y) (JSNum.fin x) = JSNum.fin (atan2 y x) := rfl

/-- Math.floor of a finite JS number. -/
theorem jsfloor_fin (a : ℝ) :
    JSNum.floor (JSNum.fin a) = JSNum.fin (⌊a⌋ : ℝ) := rfl

/-- The JS `<` on finite JS numbers is the real order. -/
theorem jslt_fin (a b : ℝ) :
    JSNum.lt (JSNum.fin a) (JSNum.fin b) = (a < b) := rfl

/-- A clamped cosine value is at least −1. -/
theorem clamp_ge (v : ℝ) : -1 ≤ max (-1) (min 1 v) := le_max_left _ _

/-- A clamped cosine value is at most 1. -/
theorem clamp_le (v : ℝ) : max (-1) (min 1 v) ≤ 1 :=
  max_le (by norm_num) (min_le_left _ _)

/-! ## C2: solver totality in JS-number semantics -/

/-- C2 counterexample: both segment lengths zero is a finite ArmConfig, and
   at the finite target (0, 0, 0) the denominator 2·l1·l2 is 0 with a zero
   numerator, so cosAngle2 = 0/0 = NaN propagates into the returned elbow
   (and shoulder): calculateIK does return NaN for a finite input. -/
theorem calculateIK_js_nan_counterexample :
    (calculateIK_js ⟨JSNum.fin 0, JSNum.fin 0, JSNum.fin 0⟩
        ⟨JSNum.fin 0, JSNum.fin 0, JSNum.fin 0⟩).elbow = JSNum.nan ∧
    (calculateIK_js ⟨JSNum.fin 0, JSNum.fin 0, JSNum.fin 0⟩
        ⟨JSNum.fin 0, JSNum.fin 0, JSNum.fin 0⟩).shoulder = JSNum.nan := by
  constructor <;>
    norm_num [calculateIK_js, JSNum.mul, JSNum.add, JSNum.sub, JSNum.neg,
      JSNum.div, JSNum.sqrt, JSNum.jsmin, JSNum.jsmax, JSNum.acos, JSNum.cos,
      JSNum.sin, JSNum.jsatan2, JSNum.floor, JSNum.lt, Real.sqrt_zero]

/-- C2 amended: for an ArmConfig with positive segment lengths the solver is
   total — on every finite target the JS-number evaluation of calculateIK
   returns exactly the finite values of the real-semantics calculateIK, so
   no field is ever NaN or ±Infinity. -/
theorem calculateIK_js_refines (x y z l1 l2 br : ℝ)
    (h1 : 0 < l1) (h2 : 0 < l2) :
    calculateIK_js ⟨JSNum.fin x, JSNum.fin y, JSNum.fin z⟩
        ⟨JSNum.fin l1, JSNum.fin l2, JSNum.fin br⟩
      = ⟨JSNum.fin ((calculateIK ⟨x, y, z⟩ ⟨l1, l2, br⟩).base : ℝ),
         JSNum.fin ((calculateIK ⟨x, y, z⟩ ⟨l1, l2, br⟩).shoulder : ℝ),
         JSNum.fin ((calculateIK ⟨x, y, z⟩ ⟨l1, l2, br⟩).elbow : ℝ),
         JSNum.fin 0⟩ := by
  have hsq : (0 : ℝ) ≤ x * x + y * y :=
    add_nonneg (mul_self_nonneg x) (mul_self_nonneg y)
  have hden : (2 : ℝ) * l1 * l2 ≠ 0 := by positivity
  have hJsqrt : JSNum.sqrt (JSNum.fin (x * x + y * y))
      = JSNum.fin (distTo ⟨x, y, z⟩) := by
    rw [jssqrt_fin _ hsq]
    rfl
  have hJlt : JSNum.lt (JSNum.fin (l1 + l2)) (JSNum.fin (distTo ⟨x, y, z⟩))
      = (l1 + l2 < distTo ⟨x, y, z⟩) := rfl
  have hJdiv1 : ∀ a : ℝ, (JSNum.fin a).div (JSNum.fin (2 * l1 * l2))
      = JSNum.fin (a / (2 * l1 * l2)) := fun a => jsdiv_fin a _ hden
  have hJdivpi : ∀ a : ℝ, (JSNum.fin a).div (JSNum.fin Real.pi)
      = JSNum.fin (a / Real.pi) := fun a => jsdiv_fin a _ Real.pi_ne_zero
  have hJacos : ∀ v : ℝ, JSNum.acos (JSNum.fin (max (-1) (min 1 v)))
      = JSNum.fin (Real.arccos (max (-1) (min 1 v))) :=
    fun v => jsacos_fin _ (clamp_ge v) (clamp_le v)
  by_cases hreach : l1 + l2 < distTo ⟨x, y, z⟩
  · have hdne : distTo ⟨x, y, z⟩ ≠ 0 :=
      (lt_trans (by positivity : (0 : ℝ) < l1 + l2) hreach).ne'
    have hJdivd : ∀ a : ℝ, (JSNum.fin a).div (JSNum.fin (distTo ⟨x, y, z⟩))
        = JSNum.fin (a / distTo ⟨x, y, z⟩) := fun a => jsdiv_fin a _ hdne
    simp only [calculateIK_js, calculateIK, theta1Rad, theta2Rad, k1, k2, c2,
      cosAngle2, adjustX, adjustY, jsmul_fin, jsadd_fin, hJsqrt, hJlt,
      gt_iff_lt, if_pos hreach, hJdivd, jsmul_fin, jsadd_fin, jssub_fin,
      hJdiv1, jsmin_fin, jsmax_fin, hJacos, jsneg_fin, jscos_fin, jssin_fin,
      jsatan2_fin, hJdivpi, jsfloor_fin]
  · simp only [calculateIK_js, calculateIK, theta1Rad, theta2Rad, k1, k2, c2,
      cosAngle2, adjustX, adjustY, jsmul_fin, jsadd_fin, hJsqrt, hJlt,
      gt_iff_lt, if_neg hreach, jssub_fin, hJdiv1, jsmin_fin, jsmax_fin,
      hJacos, jsneg_fin, jscos_fin, jssin_fin, jsatan2_fin, hJdivpi,
      jsfloor_fin]

/-- Witness for C2 amended: at config (1, 1) and the zero target (dist = 0)
   the JS evaluation agrees with the finite real-semantics result. -/
theorem calculateIK_js_refines_witness :
    calculateIK_js ⟨JSNum.fin 0, JSNum.fin 0, JSNum.fin 0⟩
        ⟨JSNum.fin 1, JSNum.fin 1, JSNum.fin 0⟩
      = ⟨JSNum.fin ((calculateIK ⟨0, 0, 0⟩ ⟨1, 1, 0⟩).base : ℝ),
         JSNum.fin ((calculateIK ⟨0, 0, 0⟩ ⟨1, 1, 0⟩).shoulder : ℝ),
         JSNum.fin ((calculateIK ⟨0, 0, 0⟩ ⟨1, 1, 0⟩).elbow : ℝ),
         JSNum.fin 0⟩ :=
  calculateIK_js_refines 0 0 0 1 1 0 (by norm_num) (by norm_num)
